import Mathlib

/-
  Verification of the dftflow pipeline execution and scheduling engine.

  Shallow embedding of the scheduling core of the repository:
    - src/cli.py             : task matrix scheduler, combo orchestrator, CLI commands
    - src/pipelines/md.py    : MdPipeline (job preparation / submission / wait)
    - src/pipelines/batch.py : BatchPipeline (batch execution + aggregation)
    - src/pipelines/utils.py : generate_summary_report, kspacing_to_mesh

  External effects (thread pools, the filesystem, queue backends, exceptions)
  are modelled explicitly: a worker that may raise is a function into
  Except String Bool, filesystem facts are Boolean fields of an environment
  record, and side effects that matter to the claims (job submission, waits,
  downstream fan-out launches) are recorded in an event trace returned next
  to the result.  Completion-order nondeterminism of as_completed is modelled
  by quantifying over permutations of the submission-order result list.
-/

namespace DftFlow

/-! ## Task matrix scheduler (src/cli.py, function _run_matrix_tasks) -/

/-- Result record returned by one worker of the matrix scheduler: the dict
built in _run_single_pipeline, src/cli.py lines 316 to 336. -/
structure MatrixResult (S P : Type) where
  structureFile : S
  pressure : P
  success : Bool
  error : Option String
deriving DecidableEq

/-- Embedding of _run_single_pipeline (src/cli.py lines 316 to 336).  The
whole body sits in a try block: mkdir, Pipeline construction and run() are
summarised by one outcome of type Except String Bool, where Except.error e
is an exception whose str() text is e.  On a normal run the dict has keys
structure, pressure, success; on an exception it additionally has error. -/
def runSinglePipeline {S P : Type} (outcome : Except String Bool) (s : S) (p : P) :
    MatrixResult S P :=
  match outcome with
  | Except.ok ok => { structureFile := s, pressure := p, success := ok, error := none }
  | Except.error e => { structureFile := s, pressure := p, success := false, error := some e }

/-- The task list of _run_matrix_tasks (src/cli.py lines 410 to 413):
structures outer loop, pressures inner loop. -/
def matrixTasks {S P : Type} (structures : List S) (pressures : List P) : List (S × P) :=
  structures.bind (fun s => pressures.map (fun p => (s, p)))

/-- Embedding of _run_matrix_tasks (src/cli.py lines 397 to 445), non-combo
branch.  Every task is submitted to the worker pool; tasksLimit only sizes
the pool (max_workers = max(tasks_limit, 1)) and does not change which tasks
run, so the submission-order list of per-task results is returned and the
arbitrary completion order of as_completed is modelled by quantifying over
permutations of this list in the theorems. -/
def runMatrixTasks {S P : Type} (behavior : S → P → Except String Bool)
    (structures : List S) (pressures : List P) (tasksLimit : Nat) :
    List (MatrixResult S P) :=
  let _maxWorkers := max tasksLimit 1
  (matrixTasks structures pressures).map
    (fun t => runSinglePipeline (behavior t.1 t.2) t.1 t.2)

/-- The (input identity, condition value) pair a result is attributed to. -/
def resultIdent {S P : Type} (r : MatrixResult S P) : S × P :=
  (r.structureFile, r.pressure)

/-- Concrete behavior for the isolation witness: the unit with structure
identity true raises, every other unit runs successfully. -/
def isolationW (s : Bool) (_ : Unit) : Except String Bool :=
  if s then Except.error "boom" else Except.ok true

/-- Reference behavior for the isolation witness: every unit succeeds. -/
def isolationW2 (_ : Bool) (_ : Unit) : Except String Bool :=
  Except.ok true

/-! ## Step state machine (BasePipeline) and the MD pipeline -/

/-- Step status enumeration of the checkpointed step state machine. -/
inductive StepStatus where
  | pending
  | running
  | success
  | failed
  | skipped
deriving DecidableEq

/-- Modelled from the spec: the file vasp/pipelines/base.py defining
BasePipeline.run is not under src/ (src/pipelines/init imports it at lines
10 to 16 but the class body is missing), so the run loop is modelled from
spec section 4.2: for each step in order, if the checkpoint says SUCCESS the
step is marked SKIPPED and not executed; otherwise the executor is invoked
and the step becomes SUCCESS or FAILED from its Boolean result; on the first
FAILED step the loop stops and run returns false; if all steps end SUCCESS
or SKIPPED it returns true.  The executor returns its Boolean result next to
a trace of the effects it performed; pipelineRun accumulates the traces of
the executors it actually invoked, so an empty trace means zero executor
invocations.  An executor that raises is caught at the Pipeline boundary and
treated as FAILED (spec section 4.2), which callers encode by mapping the
exception to a false result before passing the executor in. -/
def pipelineRun {E : Type} (steps : List String) (checkpoint : String → Option StepStatus)
    (executor : String → Bool × List E) :
    Bool × List E × List (String × StepStatus) :=
  match steps with
  | [] => (true, [], [])
  | s :: rest =>
      if checkpoint s = some StepStatus.success then
        let r := pipelineRun rest checkpoint executor
        (r.1, r.2.1, (s, StepStatus.skipped) :: r.2.2)
      else
        let e := executor s
        if e.1 then
          let r := pipelineRun rest checkpoint executor
          (r.1, e.2 ++ r.2.1, (s, StepStatus.success) :: r.2.2)
        else
          (false, e.2, [(s, StepStatus.failed)])

/-- pipelineRun with each executor invocation logged under its step name:
the trace lists exactly the steps whose executor was invoked. -/
def pipelineRunLogged (steps : List String) (checkpoint : String → Option StepStatus)
    (exec : String → Bool) : Bool × List String × List (String × StepStatus) :=
  pipelineRun steps checkpoint (fun s => (exec s, [s]))

/-- Job dispatcher effects that matter to the claims: script generation,
submission to the queue backend, blocking wait. -/
inductive JobEvent where
  | writeScript
  | submitJob
  | waitJob
deriving DecidableEq

/-- Environment of one MdPipeline run (src/pipelines/md.py): the
prepare_only flag plus the outcomes of the external collaborators. -/
structure MdEnv where
  prepareOnly : Bool
  ensurePoscarOk : Bool
  potcarMapNonempty : Bool
  preparePotcarOk : Bool
  submittedJobId : String
  waitOk : Bool
  checkCompletedOk : Bool

/-- Embedding of MdPipeline._submit_job (src/pipelines/md.py lines 157 to
161): under prepare_only it returns the sentinel handle prepare_only without
calling submit_job; otherwise it calls submit_job on the queue backend. -/
def mdSubmitJob (env : MdEnv) : String × List JobEvent :=
  if env.prepareOnly then ("prepare_only", [])
  else (env.submittedJobId, [JobEvent.submitJob])

/-- Embedding of MdPipeline._run_md (src/pipelines/md.py lines 80 to 111).
ensure_poscar raising propagates out (Except.error); an empty potcar_map or
a failing prepare_potcar returns false before any job handling; then the job
script is written and _submit_job is called; under prepare_only the step
returns true at once, otherwise it waits for the job and checks completion. -/
def mdRunMd (env : MdEnv) : Except String Bool × List JobEvent :=
  if env.ensurePoscarOk = false then (Except.error "structure conversion failed", [])
  else if env.potcarMapNonempty = false then (Except.ok false, [])
  else if env.preparePotcarOk = false then (Except.ok false, [])
  else
    let sub := mdSubmitJob env
    let evs := JobEvent.writeScript :: sub.2
    if env.prepareOnly then (Except.ok true, evs)
    else if env.waitOk = false then (Except.ok false, evs ++ [JobEvent.waitJob])
    else if env.checkCompletedOk = false then (Except.ok false, evs ++ [JobEvent.waitJob])
    else (Except.ok true, evs ++ [JobEvent.waitJob])

/-- Embedding of MdPipeline.execute_step (src/pipelines/md.py lines 60 to
64): the md step runs _run_md, any other name is an error; an exception in
the step is treated as FAILED at the Pipeline boundary. -/
def mdExecuteStep (env : MdEnv) (step : String) : Bool × List JobEvent :=
  if step = "md" then
    let r := mdRunMd env
    ((match r.1 with | Except.ok b => b | Except.error _ => false), r.2)
  else (false, [])

/-- run() of an MdPipeline whose steps are the default list, containing only
md (src/pipelines/md.py lines 55 to 58). -/
def mdPipelineRun (env : MdEnv) (checkpoint : String → Option StepStatus) :
    Bool × List JobEvent × List (String × StepStatus) :=
  pipelineRun ["md"] checkpoint (mdExecuteStep env)

/-- A prepare_only MdPipeline whose POTCAR preparation fails for lack of a
potcar map. -/
def mdCexEnv : MdEnv :=
  { prepareOnly := true, ensurePoscarOk := true, potcarMapNonempty := false,
    preparePotcarOk := true, submittedJobId := "12345", waitOk := true,
    checkCompletedOk := true }

/-- A prepare_only MdPipeline whose preparation succeeds. -/
def mdWitnessEnv : MdEnv :=
  { prepareOnly := true, ensurePoscarOk := true, potcarMapNonempty := true,
    preparePotcarOk := true, submittedJobId := "12345", waitOk := true,
    checkCompletedOk := true }

/-! ## Combo orchestrator (src/cli.py, function _run_combo_pipeline) -/

/-- The property module set of src/cli.py line 79. -/
def PROPERTY_MODULES : List String :=
  ["scf", "dos", "band", "elf", "cohp", "bader", "fermisurface"]

/-- Environment of one combo WorkUnit: outcome of the prerequisite relax
stage (Except.error models an exception), the refined artifacts the relax
stage recorded, what exists on disk, and the outcomes of the downstream
stage groups as functions of the structure they are given. -/
structure ComboEnv (S : Type) where
  prepareOnly : Bool
  relaxOutcome : Except String Bool
  relaxPrimitive : Option S
  relaxedPath : S
  existsOnDisk : S → Bool
  phononOutcome : S → Bool
  propsOutcome : S → Bool
  mdOutcome : S → Bool

/-- Launch of a downstream stage group for a combo WorkUnit, carrying the
structure passed to the group as input. -/
inductive ComboEvent (S : Type) where
  | phonon (src : S)
  | props (src : S)
  | md (src : S)
deriving DecidableEq

/-- The input structure a downstream launch received. -/
def comboEventSrc {S : Type} : ComboEvent S → S
  | ComboEvent.phonon s => s
  | ComboEvent.props s => s
  | ComboEvent.md s => s

/-- Result record of a combo WorkUnit (the dict built in
_run_combo_pipeline, src/cli.py lines 339 to 394). -/
structure ComboResult (S P : Type) where
  structureFile : S
  pressure : P
  success : Bool
  error : Option String
deriving DecidableEq

/-- Source-structure selection of src/cli.py lines 372 to 373:
relaxed_poscar is the recorded primitive structure if any, else the
POSCAR_relaxed path of the relax work dir (always truthy); the downstream
input is that path when it exists on disk, else the original input file. -/
def comboSource {S : Type} (env : ComboEnv S) (structureFile : S) : S :=
  let chosen := env.relaxPrimitive.getD env.relaxedPath
  if env.existsOnDisk chosen then chosen else structureFile

/-- Embedding of _run_combo_pipeline (src/cli.py lines 339 to 394): run the
relax prerequisite; on failure return a failed record with error relax
failed and launch nothing; on success under prepare_only return success
without launching downstream groups; otherwise launch every requested
downstream group (phonon, electronic properties, md) on the selected source
structure, wait for all of them, and succeed iff all succeeded. -/
def runComboPipeline {S P : Type} (env : ComboEnv S) (modules : List String)
    (structureFile : S) (pressure : P) : ComboResult S P × List (ComboEvent S) :=
  match env.relaxOutcome with
  | Except.error e =>
      ({ structureFile := structureFile, pressure := pressure, success := false,
         error := some e }, [])
  | Except.ok false =>
      ({ structureFile := structureFile, pressure := pressure, success := false,
         error := some "relax failed" }, [])
  | Except.ok true =>
      if env.prepareOnly then
        ({ structureFile := structureFile, pressure := pressure, success := true,
           error := none }, [])
      else
        let src := comboSource env structureFile
        let needPhonon := "phonon" ∈ modules
        let propertyModules := modules.filter (fun m => decide (m ∈ PROPERTY_MODULES))
        let needMd := "md" ∈ modules
        let events :=
          (if needPhonon then [ComboEvent.phonon src] else []) ++
          (if propertyModules = [] then [] else [ComboEvent.props src]) ++
          (if needMd then [ComboEvent.md src] else [])
        let ok :=
          (if needPhonon then env.phononOutcome src else true) &&
          (if propertyModules = [] then true else env.propsOutcome src) &&
          (if needMd then env.mdOutcome src else true)
        ({ structureFile := structureFile, pressure := pressure, success := ok,
           error := if ok then none else some "sub pipeline failed" }, events)

/-- A prepare_only combo unit whose relax stage succeeds. -/
def comboCexEnv : ComboEnv Unit :=
  { prepareOnly := true, relaxOutcome := Except.ok true, relaxPrimitive := none,
    relaxedPath := (), existsOnDisk := fun _ => true, phononOutcome := fun _ => true,
    propsOutcome := fun _ => true, mdOutcome := fun _ => true }

/-- A submit-mode combo unit whose relax stage fails. -/
def comboFailEnv : ComboEnv String :=
  { prepareOnly := false, relaxOutcome := Except.ok false, relaxPrimitive := none,
    relaxedPath := "w/POSCAR_relaxed", existsOnDisk := fun _ => false,
    phononOutcome := fun _ => true, propsOutcome := fun _ => true,
    mdOutcome := fun _ => true }

/-- A submit-mode combo unit whose relax stage succeeds, whose relaxed
structure exists on disk, and whose md group fails. -/
def comboRunEnv : ComboEnv String :=
  { prepareOnly := false, relaxOutcome := Except.ok true, relaxPrimitive := none,
    relaxedPath := "w/POSCAR_relaxed",
    existsOnDisk := fun s => s == "w/POSCAR_relaxed",
    phononOutcome := fun _ => true, propsOutcome := fun _ => true,
    mdOutcome := fun _ => false }

/-! ## CLI exit codes (src/cli.py, command_relax and command_combo) -/

/-- Environment of one command_relax invocation: batch detection, the
scanned structure list, the pressure list, and the unit outcomes. -/
structure RelaxCmdEnv (S P : Type) where
  isBatch : Bool
  structures : List S
  pressures : List P
  tasksLimit : Nat
  behavior : S → P → Except String Bool
  singleOutcome : P → Except String Bool

/-- The pressure loop of command_relax (src/cli.py lines 469 to 519),
returning the process exit code and the matrix results produced.  In the
batch branch an empty structure scan exits 1; otherwise the whole task
matrix is run and the loop continues with no exit regardless of failures.
In the single-file branch a run returning false, or an exception, exits 1.
Falling out of the loop exits 0. -/
def commandRelaxGo {S P : Type} (env : RelaxCmdEnv S P) :
    List P → Nat × List (MatrixResult S P)
  | [] => (0, [])
  | p :: rest =>
      if env.isBatch then
        if env.structures.isEmpty then (1, [])
        else
          let results := runMatrixTasks env.behavior env.structures env.pressures
            env.tasksLimit
          let r := commandRelaxGo env rest
          (r.1, results ++ r.2)
      else
        match env.singleOutcome p with
        | Except.ok true => commandRelaxGo env rest
        | Except.ok false => (1, [])
        | Except.error _ => (1, [])

/-- Exit code and aggregated results of command_relax. -/
def commandRelax {S P : Type} (env : RelaxCmdEnv S P) : Nat × List (MatrixResult S P) :=
  commandRelaxGo env env.pressures

/-- Exit code of command_combo (src/cli.py lines 830 to 893): exit 1 when no
module was named or when batch mode finds no structure file; otherwise the
matrix of combo tasks runs, per-unit failures are only counted and logged,
and the command exits 0. -/
def commandComboExit {S : Type} (modules : List String) (isBatch : Bool)
    (scanned : List S) : Nat :=
  if modules.isEmpty then 1
  else if isBatch && scanned.isEmpty then 1
  else 0

/-- A batch command_relax invocation with one structure, one pressure, whose
only WorkUnit fails. -/
def relaxCexEnv : RelaxCmdEnv Unit Unit :=
  { isBatch := true, structures := [()], pressures := [()], tasksLimit := 1,
    behavior := fun _ _ => Except.ok false, singleOutcome := fun _ => Except.ok true }

/-! ## Batch pipeline and summary report (src/pipelines/batch.py, utils.py) -/

/-- The per-structure result dict of BatchPipeline._run_single_structure
(src/pipelines/batch.py lines 202 to 256).  The work_dir key is only set
after work_dir.mkdir succeeds, so it is Option-valued; the error key is set
on a caught exception; energy is only extracted on success. -/
structure BatchRecord where
  structureName : String
  workDir : Option String
  success : Bool
  energy : Option ℚ
  error : Option String
deriving DecidableEq

/-- Environment of one structure in a batch run: the outcome of
work_dir.mkdir, the outcome of the Pipeline (Except.error models a raised
exception), and the energy extracted from artifacts on success. -/
structure BatchUnit where
  name : String
  workDirPath : String
  mkdirOutcome : Except String Unit
  pipelineOutcome : Except String Bool
  energy : Option ℚ

/-- Embedding of BatchPipeline._run_single_structure: a mkdir exception is
caught before the work_dir key was set, yielding a record without it; a
Pipeline exception is caught after, yielding a failed record with the
exception text; otherwise success mirrors run(). -/
def runSingleStructure (u : BatchUnit) : BatchRecord :=
  match u.mkdirOutcome with
  | Except.error e =>
      { structureName := u.name, workDir := none, success := false, energy := none,
        error := some e }
  | Except.ok _ =>
      match u.pipelineOutcome with
      | Except.error e =>
          { structureName := u.name, workDir := some u.workDirPath, success := false,
            energy := none, error := some e }
      | Except.ok ok =>
          { structureName := u.name, workDir := some u.workDirPath, success := ok,
            energy := if ok then u.energy else none, error := none }

/-- One detail line of the summary report, tying a WorkUnit to its working
directory and pass or fail status. -/
structure SummaryLine where
  name : String
  workDir : String
  success : Bool
deriving DecidableEq

/-- Embedding of generate_summary_report (src/pipelines/utils.py lines 133
to 177).  The detail loop reads result with square brackets on the
structure_name and work_dir keys, so a record without a work_dir key raises
KeyError, modelled as Except.error. -/
def generateSummaryReport : List BatchRecord → Except String (List SummaryLine)
  | [] => Except.ok []
  | r :: rest =>
      match r.workDir with
      | none => Except.error "KeyError: work_dir"
      | some wd =>
          match generateSummaryReport rest with
          | Except.error e => Except.error e
          | Except.ok ls => Except.ok (SummaryLine.mk r.structureName wd r.success :: ls)

/-- Embedding of BatchPipeline.run (src/pipelines/batch.py lines 115 to
152): run every structure, then generate the summary report; an exception
inside report generation propagates out of run(). -/
def batchPipelineRun (units : List BatchUnit) :
    Except String (List BatchRecord × List SummaryLine) :=
  let records := units.map runSingleStructure
  match generateSummaryReport records with
  | Except.error e => Except.error e
  | Except.ok rep => Except.ok (records, rep)

/-- A batch unit whose work_dir.mkdir raises, as happens when a plain file
already occupies the work-directory path. -/
def batchCexUnit : BatchUnit :=
  { name := "s1", workDirPath := "root/s1", mkdirOutcome := Except.error "File exists",
    pipelineOutcome := Except.ok false, energy := none }

/-! ## kspacing_to_mesh (src/pipelines/utils.py lines 423 to 469) -/

/-- Whitespace tokenization of one POSCAR line (Python str.split). -/
def splitWs (line : String) : List String :=
  (line.splitOn " ").filter (fun t => !t.isEmpty)

/-- float() applied to the first three tokens of a lattice-vector line; a
missing token raises IndexError downstream and a malformed token raises
ValueError, both collapsing to none.  The float builtin itself is external,
so it is a parameter tok. -/
def parseVec3 (tok : String → Option ℚ) (line : String) : Option (ℚ × ℚ × ℚ) :=
  match (splitWs line).take 3 with
  | [x, y, z] =>
      match tok x, tok y, tok z with
      | some u, some v, some w => some (u, v, w)
      | _, _, _ => none
  | _ => none

/-- float(lines[1].split()[0]): the scale factor on line index 1. -/
def parseScale (tok : String → Option ℚ) (line : String) : Option ℚ :=
  match splitWs line with
  | [] => none
  | x :: _ => tok x

/-- Scalar multiple of a 3-vector. -/
def smul3 (c : ℚ) (v : ℚ × ℚ × ℚ) : ℚ × ℚ × ℚ :=
  (c * v.1, c * v.2.1, c * v.2.2)

/-- The cross helper of kspacing_to_mesh. -/
def cross3 (u v : ℚ × ℚ × ℚ) : ℚ × ℚ × ℚ :=
  (u.2.1 * v.2.2 - u.2.2 * v.2.1,
   u.2.2 * v.1 - u.1 * v.2.2,
   u.1 * v.2.1 - u.2.1 * v.1)

/-- The dot helper of kspacing_to_mesh. -/
def dot3 (u v : ℚ × ℚ × ℚ) : ℚ :=
  u.1 * v.1 + u.2.1 * v.2.1 + u.2.2 * v.2.2

/-- Squared Euclidean norm of a 3-vector. -/
def normSq (v : ℚ × ℚ × ℚ) : ℚ :=
  dot3 v v

/-- Lines 429 to 438 of kspacing_to_mesh: length check, scale parse, three
lattice-vector parses, scaling.  Any failure raises and is caught by the
surrounding handler, modelled as none. -/
def parseCell (tok : String → Option ℚ) (lines : List String) :
    Option ((ℚ × ℚ × ℚ) × (ℚ × ℚ × ℚ) × (ℚ × ℚ × ℚ)) :=
  match lines with
  | _ :: l1 :: l2 :: l3 :: l4 :: _ => do
      let scale ← parseScale tok l1
      let a1 ← parseVec3 tok l2
      let a2 ← parseVec3 tok l3
      let a3 ← parseVec3 tok l4
      pure (smul3 scale a1, smul3 scale a2, smul3 scale a3)
  | _ => none

/-- A natural n with d at most n^2 * k^2, used as the search bound for the
exact ceiling computation in meshCount. -/
def meshBoundWitness (d k : ℚ) (hk : 0 < k) : { n : ℕ // d ≤ (n : ℚ) ^ 2 * k ^ 2 } := by
  have hk2 : (0 : ℚ) < k ^ 2 := by positivity
  refine ⟨max 1 ⌈|d| / k ^ 2⌉₊, ?_⟩
  set m : ℕ := max 1 ⌈|d| / k ^ 2⌉₊ with hm
  have h1 : (1 : ℚ) ≤ (m : ℚ) := by
    have h := Nat.le_max_left 1 ⌈|d| / k ^ 2⌉₊
    exact_mod_cast h
  have hc : |d| / k ^ 2 ≤ (m : ℚ) := by
    have h2 : (⌈|d| / k ^ 2⌉₊ : ℚ) ≤ (m : ℚ) := by
      have h := Nat.le_max_right 1 ⌈|d| / k ^ 2⌉₊
      exact_mod_cast h
    exact le_trans (Nat.le_ceil _) h2
  have habs : |d| ≤ (m : ℚ) * k ^ 2 := (div_le_iff hk2).1 hc
  have hd : d ≤ |d| := le_abs_self d
  have hmm : (m : ℚ) * k ^ 2 ≤ (m : ℚ) ^ 2 * k ^ 2 := by
    nlinarith [mul_nonneg (mul_nonneg (by linarith : (0 : ℚ) ≤ (m : ℚ))
      (by linarith : (0 : ℚ) ≤ (m : ℚ) - 1)) hk2.le]
  linarith

/-- One mesh component max(1, ceil(norm(b) / kspacing)) in exact arithmetic:
d is the squared norm of b, and for kspacing positive the value
ceil(sqrt d / kspacing) is the least natural n with d at most n^2 *
kspacing^2; for kspacing negative the quotient is nonpositive so the max
with 1 yields 1. -/
def meshCount (d k : ℚ) : ℕ :=
  if hk : 0 < k then
    max 1 (Nat.find (⟨(meshBoundWitness d k hk).1, (meshBoundWitness d k hk).2⟩ :
      ∃ n : ℕ, d ≤ (n : ℚ) ^ 2 * k ^ 2))
  else 1

/-- Embedding of kspacing_to_mesh (src/pipelines/utils.py lines 423 to 469)
over exact rational arithmetic.  Parse failure, a cell volume below 1e-8 in
magnitude, and the ZeroDivisionError of kspacing = 0 all fall back to
(1, 1, 1); otherwise each component is max(1, ceil(norm(b_i) / kspacing))
for the 2 pi scaled reciprocal vectors b_i, where piFloat stands for the
float constant math.pi. -/
def kspacingToMesh (tok : String → Option ℚ) (lines : List String)
    (kspacing piFloat : ℚ) : ℕ × ℕ × ℕ :=
  match parseCell tok lines with
  | none => (1, 1, 1)
  | some (a1, a2, a3) =>
      let vol := dot3 a1 (cross3 a2 a3)
      if |vol| < 1 / 100000000 then (1, 1, 1)
      else if kspacing = 0 then (1, 1, 1)
      else
        let factor := 2 * piFloat / vol
        (meshCount (normSq (smul3 factor (cross3 a2 a3))) kspacing,
         meshCount (normSq (smul3 factor (cross3 a3 a1))) kspacing,
         meshCount (normSq (smul3 factor (cross3 a1 a2))) kspacing)

theorem length_matrixTasks {S P : Type} (structures : List S) (pressures : List P) :
    (matrixTasks structures pressures).length = structures.length * pressures.length := by
  induction structures with
  | nil => simp [matrixTasks]
  | cons a l ih =>
      simp only [matrixTasks, List.cons_bind, List.length_append, List.length_map] at *
      rw [ih, List.length_cons, Nat.succ_mul]
      exact Nat.add_comm _ _

theorem resultIdent_runSinglePipeline {S P : Type} (outcome : Except String Bool)
    (s : S) (p : P) : resultIdent (runSinglePipeline outcome s p) = (s, p) := by
  cases outcome <;> rfl

theorem map_ident_runMatrixTasks {S P : Type} (behavior : S → P → Except String Bool)
    (structures : List S) (pressures : List P) (tasksLimit : Nat) :
    (runMatrixTasks behavior structures pressures tasksLimit).map resultIdent =
      matrixTasks structures pressures := by
  simp only [runMatrixTasks, List.map_map]
  have : (resultIdent ∘ fun t : S × P => runSinglePipeline (behavior t.1 t.2) t.1 t.2) =
      fun t : S × P => (t.1, t.2) := by
    funext t
    exact resultIdent_runSinglePipeline _ _ _
  rw [this]
  simp

/-- Claim C1: for every non-empty list of N structure files and every
non-empty list of M pressure values, the task-matrix scheduler produces
exactly N times M result records, one per (structure, pressure) pair, each
carrying the identity of that pair, for every concurrency limit at least 1
and every completion order. -/
theorem matrix_tasks_product_complete {S P : Type}
    (behavior : S → P → Except String Bool)
    (structures : List S) (pressures : List P) (tasksLimit : Nat)
    (hs : structures ≠ []) (hp : pressures ≠ []) (hl : 1 ≤ tasksLimit)
    (results : List (MatrixResult S P))
    (hperm : results.Perm (runMatrixTasks behavior structures pressures tasksLimit)) :
    results.length = structures.length * pressures.length ∧
    (results.map resultIdent).Perm (matrixTasks structures pressures) := by
  constructor
  · rw [hperm.length_eq]
    simp only [runMatrixTasks, List.length_map]
    exact length_matrixTasks structures pressures
  · have h := hperm.map resultIdent
    rwa [map_ident_runMatrixTasks] at h

/-- Witness for matrix_tasks_product_complete at a concrete input. -/
theorem matrix_tasks_product_complete_witness :
    (runMatrixTasks (fun (_ : String) (_ : Int) => Except.ok true) ["a", "b"] [0, 10] 2).length
        = 2 * 2 ∧
    (((runMatrixTasks (fun (_ : String) (_ : Int) => Except.ok true)
        ["a", "b"] [0, 10] 2).map resultIdent).Perm
      (matrixTasks ["a", "b"] ([0, 10] : List Int))) :=
  matrix_tasks_product_complete (fun _ _ => Except.ok true) ["a", "b"] [0, 10] 2
    (by simp) (by simp) (by simp) _ (List.Perm.refl _)

theorem filter_other_units_congr {S P : Type} [DecidableEq S] [DecidableEq P]
    (b b2 : S → P → Except String Bool) (s0 : S) (p0 : P)
    (hagree : ∀ s p, (s, p) ≠ (s0, p0) → b s p = b2 s p)
    (ts : List (S × P)) :
    (ts.map (fun t => runSinglePipeline (b t.1 t.2) t.1 t.2)).filter
        (fun r => decide (resultIdent r ≠ (s0, p0))) =
      (ts.map (fun t => runSinglePipeline (b2 t.1 t.2) t.1 t.2)).filter
        (fun r => decide (resultIdent r ≠ (s0, p0))) := by
  induction ts with
  | nil => rfl
  | cons t ts ih =>
      obtain ⟨a, c⟩ := t
      simp only [List.map_cons, List.filter_cons, resultIdent_runSinglePipeline, ne_eq,
        decide_not] at ih ⊢
      by_cases h : (a, c) = (s0, p0)
      · simpa [h] using ih
      · have hb := hagree a c h
        simpa [h, hb] using ih

/-- Claim C2 fails as stated: a worker exception raised with an empty
message text is converted into a result whose error message is empty, so
the error message is not always non-empty. -/
theorem matrix_isolation_empty_message_cex :
    runMatrixTasks (fun (_ : Unit) (_ : Unit) => Except.error "") [()] [()] 1 =
      [{ structureFile := (), pressure := (), success := false, error := some "" }] ∧
    String.length "" = 0 :=
  ⟨rfl, rfl⟩

/-- Claim C2 (amended): any exception raised while constructing or running
the Pipeline of one WorkUnit is caught at the scheduler boundary and
converted into a result with success false whose error message equals the
text of the exception (hence non-empty whenever that text is non-empty),
for that unit only; the results of every other WorkUnit are unaffected by
the failure. -/
theorem matrix_isolation_amended {S P : Type} [DecidableEq S] [DecidableEq P]
    (b b2 : S → P → Except String Bool) (s0 : S) (p0 : P) (e : String)
    (hfail : b s0 p0 = Except.error e)
    (hagree : ∀ s p, (s, p) ≠ (s0, p0) → b s p = b2 s p)
    (structures : List S) (pressures : List P) (tasksLimit : Nat) :
    (∀ r ∈ runMatrixTasks b structures pressures tasksLimit,
        resultIdent r = (s0, p0) → r.success = false ∧ r.error = some e) ∧
    (runMatrixTasks b structures pressures tasksLimit).filter
        (fun r => decide (resultIdent r ≠ (s0, p0))) =
      (runMatrixTasks b2 structures pressures tasksLimit).filter
        (fun r => decide (resultIdent r ≠ (s0, p0))) := by
  constructor
  · intro r hr hid
    simp only [runMatrixTasks, List.mem_map] at hr
    obtain ⟨t, ht, rfl⟩ := hr
    obtain ⟨a, c⟩ := t
    rw [resultIdent_runSinglePipeline] at hid
    injection hid with h1 h2
    subst h1
    subst h2
    rw [hfail]
    exact ⟨rfl, rfl⟩
  · exact filter_other_units_congr b b2 s0 p0 hagree _

/-- Witness for matrix_isolation_amended at a concrete input: two structures,
one pressure, the unit with identity true raises with message boom. -/
theorem matrix_isolation_amended_witness :
    (runMatrixTasks isolationW [true, false] [()] 2).filter
        (fun r => decide (resultIdent r ≠ (true, ()))) =
      (runMatrixTasks isolationW2 [true, false] [()] 2).filter
        (fun r => decide (resultIdent r ≠ (true, ()))) :=
  (matrix_isolation_amended isolationW isolationW2 true () "boom" rfl
      (fun s p h => by
        cases p
        cases s
        · rfl
        · exact absurd rfl h)
      [true, false] [()] 2).2

/-- Claim C3 fails as stated: a prepare_only MdPipeline whose POTCAR map is
empty performs no submission and no wait, yet run() returns false, not
true. -/
theorem prepare_only_run_false_cex :
    mdCexEnv.prepareOnly = true ∧
    (mdPipelineRun mdCexEnv (fun _ => none)).1 = false ∧
    (mdPipelineRun mdCexEnv (fun _ => none)).2.1 = [] :=
  ⟨rfl, rfl, rfl⟩

/-- Claim C3 (amended): for every MdPipeline run with prepare_only true and
every checkpoint, no job-submission call and no job wait or poll call ever
occurs for any step, and the submit operation returns the sentinel handle
prepare_only without invoking the queue backend, so no external job is
created; run() returns true after one pass provided each preparation step
succeeds (structure conversion, a non-empty potcar map, POTCAR
generation). -/
theorem prepare_only_no_dispatch (env : MdEnv) (checkpoint : String → Option StepStatus)
    (h : env.prepareOnly = true) :
    JobEvent.submitJob ∉ (mdPipelineRun env checkpoint).2.1 ∧
    JobEvent.waitJob ∉ (mdPipelineRun env checkpoint).2.1 ∧
    (mdSubmitJob env).1 = "prepare_only" ∧
    (env.ensurePoscarOk = true → env.potcarMapNonempty = true →
      env.preparePotcarOk = true → (mdPipelineRun env checkpoint).1 = true) := by
  obtain ⟨po, ep, pm, pp, jid, w, c⟩ := env
  cases h
  by_cases hcp : checkpoint "md" = some StepStatus.success <;>
    cases ep <;> cases pm <;> cases pp <;>
      simp [mdPipelineRun, pipelineRun, mdExecuteStep, mdRunMd, mdSubmitJob, hcp]

/-- Witness for prepare_only_no_dispatch at a concrete environment. -/
theorem prepare_only_no_dispatch_witness :
    JobEvent.submitJob ∉ (mdPipelineRun mdWitnessEnv (fun _ => none)).2.1 ∧
    JobEvent.waitJob ∉ (mdPipelineRun mdWitnessEnv (fun _ => none)).2.1 ∧
    (mdSubmitJob mdWitnessEnv).1 = "prepare_only" ∧
    (mdPipelineRun mdWitnessEnv (fun _ => none)).1 = true := by
  have h := prepare_only_no_dispatch mdWitnessEnv (fun _ => none) rfl
  exact ⟨h.1, h.2.1, h.2.2.1, h.2.2.2 rfl rfl rfl⟩

/-- Claim C4: for every combo WorkUnit whose prerequisite relax stage does
not succeed, no downstream stage group is ever launched for that unit, and
the result is failed with a diagnostic, which is the message relax failed
whenever the relax pipeline completed with a false result. -/
theorem combo_prereq_failure_gates_downstream {S P : Type} (env : ComboEnv S)
    (modules : List String) (s : S) (p : P)
    (h : env.relaxOutcome ≠ Except.ok true) :
    (runComboPipeline env modules s p).2 = [] ∧
    (runComboPipeline env modules s p).1.success = false ∧
    (runComboPipeline env modules s p).1.error ≠ none ∧
    (env.relaxOutcome = Except.ok false →
      (runComboPipeline env modules s p).1.error = some "relax failed") := by
  match hrel : env.relaxOutcome with
  | Except.error e => simp [runComboPipeline, hrel]
  | Except.ok false => simp [runComboPipeline, hrel]
  | Except.ok true => exact absurd hrel h

/-- Witness for combo_prereq_failure_gates_downstream at a concrete
environment whose relax stage returns false. -/
theorem combo_prereq_failure_gates_downstream_witness :
    (runComboPipeline comboFailEnv ["relax", "phonon", "md"] "in.vasp" (0 : Int)).2 = [] ∧
    (runComboPipeline comboFailEnv ["relax", "phonon", "md"] "in.vasp"
      (0 : Int)).1.success = false ∧
    (runComboPipeline comboFailEnv ["relax", "phonon", "md"] "in.vasp"
      (0 : Int)).1.error = some "relax failed" := by
  have h := combo_prereq_failure_gates_downstream comboFailEnv ["relax", "phonon", "md"]
    "in.vasp" (0 : Int) (by simp [comboFailEnv])
  exact ⟨h.1, h.2.1, h.2.2.2 rfl⟩

theorem mem_ite_singleton {A : Type} {c : Prop} [Decidable c] {x ev : A}
    (h : ev ∈ (if c then [x] else ([] : List A))) : ev = x := by
  split at h
  · simpa using h
  · simp at h

theorem mem_ite_singleton2 {A : Type} {c : Prop} [Decidable c] {x ev : A}
    (h : ev ∈ (if c then ([] : List A) else [x])) : ev = x := by
  split at h
  · simp at h
  · simpa using h

/-- Claim C5 fails as stated: in a prepare_only combo run (the default when
the submit flag is absent) the prerequisite succeeds and phonon is
requested, yet no downstream group is launched. -/
theorem combo_prepare_only_skips_downstream_cex :
    comboCexEnv.relaxOutcome = Except.ok true ∧
    "phonon" ∈ ["relax", "phonon"] ∧
    (runComboPipeline comboCexEnv ["relax", "phonon"] () (0 : Int)).1.success = true ∧
    (runComboPipeline comboCexEnv ["relax", "phonon"] () (0 : Int)).2 = [] :=
  ⟨rfl, by simp, rfl, rfl⟩

/-- Claim C5 (amended): for every combo WorkUnit in submit mode
(prepare_only false) whose prerequisite succeeds, every requested downstream
stage group (phonon, electronic properties, md) is launched, and each
receives as input the structure selected from the relax stage: the recorded
primitive structure if any, else the POSCAR_relaxed path of the relax stage,
falling back to the original input structure when that artifact does not
exist on disk.  Under prepare_only (no submit flag) no downstream group is
launched at all. -/
theorem combo_fanout_amended {S P : Type} (env : ComboEnv S) (modules : List String)
    (s : S) (p : P) (hsub : env.prepareOnly = false)
    (hrel : env.relaxOutcome = Except.ok true) :
    (ComboEvent.phonon (comboSource env s) ∈ (runComboPipeline env modules s p).2 ↔
      "phonon" ∈ modules) ∧
    (ComboEvent.props (comboSource env s) ∈ (runComboPipeline env modules s p).2 ↔
      modules.filter (fun m => decide (m ∈ PROPERTY_MODULES)) ≠ []) ∧
    (ComboEvent.md (comboSource env s) ∈ (runComboPipeline env modules s p).2 ↔
      "md" ∈ modules) ∧
    (∀ ev ∈ (runComboPipeline env modules s p).2, comboEventSrc ev = comboSource env s) ∧
    (env.existsOnDisk (env.relaxPrimitive.getD env.relaxedPath) = false →
      comboSource env s = s) ∧
    (env.existsOnDisk (env.relaxPrimitive.getD env.relaxedPath) = true →
      comboSource env s = env.relaxPrimitive.getD env.relaxedPath) := by
  have hev : (runComboPipeline env modules s p).2 =
      (if "phonon" ∈ modules then [ComboEvent.phonon (comboSource env s)] else []) ++
      ((if modules.filter (fun m => decide (m ∈ PROPERTY_MODULES)) = [] then []
        else [ComboEvent.props (comboSource env s)]) ++
      (if "md" ∈ modules then [ComboEvent.md (comboSource env s)] else [])) := by
    simp [runComboPipeline, hrel, hsub]
  refine ⟨?_, ?_, ?_, ?_, ?_, ?_⟩
  · rw [hev]
    by_cases h1 : "phonon" ∈ modules <;>
      by_cases h2 : modules.filter (fun m => decide (m ∈ PROPERTY_MODULES)) = [] <;>
        by_cases h3 : "md" ∈ modules <;> simp [h1, h2, h3]
  · rw [hev]
    by_cases h1 : "phonon" ∈ modules <;>
      by_cases h2 : modules.filter (fun m => decide (m ∈ PROPERTY_MODULES)) = [] <;>
        by_cases h3 : "md" ∈ modules <;> simp [h1, h2, h3]
  · rw [hev]
    by_cases h1 : "phonon" ∈ modules <;>
      by_cases h2 : modules.filter (fun m => decide (m ∈ PROPERTY_MODULES)) = [] <;>
        by_cases h3 : "md" ∈ modules <;> simp [h1, h2, h3]
  · rw [hev]
    intro ev hm
    rcases List.mem_append.1 hm with hm | hm
    · rw [mem_ite_singleton hm]
      rfl
    · rcases List.mem_append.1 hm with hm | hm
      · rw [mem_ite_singleton2 hm]
        rfl
      · rw [mem_ite_singleton hm]
        rfl
  · intro hdisk
    simp [comboSource, hdisk]
  · intro hdisk
    simp [comboSource, hdisk]

/-- Witness for combo_fanout_amended at a concrete submit-mode environment
whose relaxed structure exists on disk. -/
theorem combo_fanout_amended_witness :
    (ComboEvent.phonon (comboSource comboRunEnv "in.vasp") ∈
      (runComboPipeline comboRunEnv ["relax", "phonon", "dos", "md"] "in.vasp"
        (0 : Int)).2) ∧
    comboSource comboRunEnv "in.vasp" = "w/POSCAR_relaxed" := by
  have h := combo_fanout_amended comboRunEnv ["relax", "phonon", "dos", "md"] "in.vasp"
    (0 : Int) rfl rfl
  refine ⟨h.1.mpr (by simp), ?_⟩
  have h6 := h.2.2.2.2.2 (by rfl)
  simpa using h6

/-- Claim C6: for every combo WorkUnit in submit mode whose prerequisite
succeeds, the overall success of the unit is the logical conjunction of the
prerequisite outcome (true here) with the outcomes of all requested
downstream groups, and every requested downstream group is launched
regardless of the outcomes of its siblings, so one group failing does not
keep the others from running to completion. -/
theorem combo_success_is_conjunction {S P : Type} (env : ComboEnv S)
    (modules : List String) (s : S) (p : P) (hsub : env.prepareOnly = false)
    (hrel : env.relaxOutcome = Except.ok true) :
    ((runComboPipeline env modules s p).1.success = true ↔
      (("phonon" ∈ modules → env.phononOutcome (comboSource env s) = true) ∧
       (modules.filter (fun m => decide (m ∈ PROPERTY_MODULES)) ≠ [] →
         env.propsOutcome (comboSource env s) = true) ∧
       ("md" ∈ modules → env.mdOutcome (comboSource env s) = true))) ∧
    ("phonon" ∈ modules →
      ComboEvent.phonon (comboSource env s) ∈ (runComboPipeline env modules s p).2) ∧
    (modules.filter (fun m => decide (m ∈ PROPERTY_MODULES)) ≠ [] →
      ComboEvent.props (comboSource env s) ∈ (runComboPipeline env modules s p).2) ∧
    ("md" ∈ modules →
      ComboEvent.md (comboSource env s) ∈ (runComboPipeline env modules s p).2) := by
  by_cases h1 : "phonon" ∈ modules <;>
    by_cases h2 : modules.filter (fun m => decide (m ∈ PROPERTY_MODULES)) = [] <;>
      by_cases h3 : "md" ∈ modules <;>
        simp [runComboPipeline, hrel, hsub, h1, h2, h3, and_assoc]

/-- Witness for combo_success_is_conjunction at a concrete environment where
the md group fails: phonon and md are both launched, and overall success is
false. -/
theorem combo_success_is_conjunction_witness :
    (ComboEvent.phonon (comboSource comboRunEnv "in.vasp") ∈
      (runComboPipeline comboRunEnv ["relax", "phonon", "dos", "md"] "in.vasp"
        (0 : Int)).2) ∧
    (ComboEvent.md (comboSource comboRunEnv "in.vasp") ∈
      (runComboPipeline comboRunEnv ["relax", "phonon", "dos", "md"] "in.vasp"
        (0 : Int)).2) ∧
    ¬((runComboPipeline comboRunEnv ["relax", "phonon", "dos", "md"] "in.vasp"
        (0 : Int)).1.success = true) := by
  have h := combo_success_is_conjunction comboRunEnv ["relax", "phonon", "dos", "md"]
    "in.vasp" (0 : Int) rfl rfl
  refine ⟨h.2.1 (by simp), h.2.2.2 (by simp), ?_⟩
  intro hs
  have hmd := (h.1.mp hs).2.2 (by simp)
  simp [comboRunEnv] at hmd

theorem commandRelaxGo_batch_empty {S P : Type} (env : RelaxCmdEnv S P)
    (h1 : env.isBatch = true) (h2 : env.structures = []) (ps : List P) (hp : ps ≠ []) :
    (commandRelaxGo env ps).1 = 1 := by
  cases ps with
  | nil => exact absurd rfl hp
  | cons p rest => simp [commandRelaxGo, h1, h2]

theorem commandRelaxGo_batch_nonempty {S P : Type} (env : RelaxCmdEnv S P)
    (h1 : env.isBatch = true) (h2 : env.structures ≠ []) (ps : List P) :
    (commandRelaxGo env ps).1 = 0 := by
  induction ps with
  | nil => rfl
  | cons p rest ih => simp [commandRelaxGo, h1, h2, ih]

theorem commandRelaxGo_single {S P : Type} (env : RelaxCmdEnv S P)
    (h1 : env.isBatch = false) (ps : List P) :
    ((commandRelaxGo env ps).1 = 0 ↔
      ∀ p ∈ ps, env.singleOutcome p = Except.ok true) := by
  induction ps with
  | nil => simp [commandRelaxGo]
  | cons p rest ih =>
      rcases hso : env.singleOutcome p with e | b
      · simp [commandRelaxGo, h1, hso]
      · cases b
        · simp [commandRelaxGo, h1, hso]
        · simp [commandRelaxGo, h1, hso, ih]

/-- Claim C7 fails as stated: a batch command_relax invocation whose only
WorkUnit fails has aggregate failure count 1 yet exits with code 0, because
the batch branch only logs the success count and never calls sys.exit. -/
theorem batch_failures_exit_zero_cex :
    (commandRelax relaxCexEnv).1 = 0 ∧
    ((commandRelax relaxCexEnv).2.filter (fun r => !r.success)).length = 1 :=
  ⟨rfl, rfl⟩

/-- Claim C7 (amended): the exit code is non-zero when a fatal configuration
error occurs before scheduling begins (no module named for combo, no
structure file found in batch mode) and when a single-file invocation fails
or raises at some pressure; once batch scheduling begins the invocation
always exits 0, regardless of the aggregate failure count, per-unit
failures being visible only in the logs and reports. -/
theorem cli_exit_code_amended {S P : Type} (env : RelaxCmdEnv S P)
    (modules : List String) (isBatch2 : Bool) (scanned : List S) :
    (env.isBatch = true → env.structures = [] → env.pressures ≠ [] →
      (commandRelax env).1 = 1) ∧
    (env.isBatch = true → env.structures ≠ [] → (commandRelax env).1 = 0) ∧
    (env.isBatch = false →
      ((commandRelax env).1 = 0 ↔
        ∀ p ∈ env.pressures, env.singleOutcome p = Except.ok true)) ∧
    (commandComboExit modules isBatch2 scanned = 0 ↔
      modules ≠ [] ∧ (isBatch2 = true → scanned ≠ [])) := by
  refine ⟨?_, ?_, ?_, ?_⟩
  · intro h1 h2 hp
    exact commandRelaxGo_batch_empty env h1 h2 env.pressures hp
  · intro h1 h2
    exact commandRelaxGo_batch_nonempty env h1 h2 env.pressures
  · intro h1
    exact commandRelaxGo_single env h1 env.pressures
  · cases isBatch2 <;>
      cases modules <;>
        cases scanned <;> simp [commandComboExit]

/-- Witness for cli_exit_code_amended at concrete inputs: a batch relax run
with a failing unit exits 0, and a combo invocation with modules and
structures present exits 0. -/
theorem cli_exit_code_amended_witness :
    (commandRelax relaxCexEnv).1 = 0 ∧ commandComboExit ["relax"] true [()] = 0 := by
  have h := cli_exit_code_amended relaxCexEnv ["relax"] true [()]
  exact ⟨h.2.1 rfl (by simp [relaxCexEnv]),
    h.2.2.2.mpr ⟨by simp, fun _ => by simp⟩⟩

/-- Claim C8 states the intended behavior, but the code has a bug: a result
record produced from an exception caught before the work_dir key was set
(for example work_dir.mkdir raising because a plain file occupies the path)
lacks that key, and the detail loop of generate_summary_report indexes the
record with square brackets on work_dir, so BatchPipeline.run raises
KeyError during aggregation instead of finishing and writing the report. -/
theorem batch_report_keyerror_on_missing_workdir :
    runSingleStructure batchCexUnit =
      { structureName := "s1", workDir := none, success := false, energy := none,
        error := some "File exists" } ∧
    batchPipelineRun [batchCexUnit] = Except.error "KeyError: work_dir" :=
  ⟨rfl, rfl⟩

/-- Claim C9: for every WorkUnit whose previous Pipeline run completed with
every step SUCCESS in the checkpoint, re-invoking run() executes zero step
executors, marks every step SKIPPED from the checkpoint, and returns true.
BasePipeline is modelled from the spec because vasp/pipelines/base.py is not
under src/. -/
theorem rerun_after_full_success_skips_all (steps : List String)
    (checkpoint : String → Option StepStatus) (exec : String → Bool)
    (h : ∀ s ∈ steps, checkpoint s = some StepStatus.success) :
    (pipelineRunLogged steps checkpoint exec).1 = true ∧
    (pipelineRunLogged steps checkpoint exec).2.1 = [] ∧
    (pipelineRunLogged steps checkpoint exec).2.2 =
      steps.map (fun s => (s, StepStatus.skipped)) := by
  induction steps with
  | nil => exact ⟨rfl, rfl, rfl⟩
  | cons s rest ih =>
      have hs := h s (List.mem_cons_self s rest)
      have hr := ih (fun t ht => h t (List.mem_cons_of_mem s ht))
      refine ⟨?_, ?_, ?_⟩ <;>
        simp only [pipelineRunLogged, pipelineRun, hs, if_pos, List.map_cons] at *
      · exact hr.1
      · exact hr.2.1
      · rw [hr.2.2]

/-- Witness for rerun_after_full_success_skips_all at a concrete two-step
pipeline whose checkpoint records SUCCESS for every step. -/
theorem rerun_after_full_success_skips_all_witness :
    (pipelineRunLogged ["relax", "scf"] (fun _ => some StepStatus.success)
      (fun _ => false)).1 = true ∧
    (pipelineRunLogged ["relax", "scf"] (fun _ => some StepStatus.success)
      (fun _ => false)).2.1 = [] ∧
    (pipelineRunLogged ["relax", "scf"] (fun _ => some StepStatus.success)
      (fun _ => false)).2.2 =
      [("relax", StepStatus.skipped), ("scf", StepStatus.skipped)] :=
  rerun_after_full_success_skips_all ["relax", "scf"] (fun _ => some StepStatus.success)
    (fun _ => false) (fun _ _ => rfl)

/-- Claim C10: for every POSCAR content, every behavior of the external
float parser, every positive kspacing, and every value of the float constant
pi, kspacing_to_mesh returns a triple of integers each at least 1, and it
returns (1, 1, 1) instead of raising whenever the file cannot be parsed or
the cell volume is below 1e-8 in magnitude. -/
theorem kspacing_to_mesh_safe (tok : String → Option ℚ) (lines : List String)
    (k piF : ℚ) (hk : 0 < k) :
    1 ≤ (kspacingToMesh tok lines k piF).1 ∧
    1 ≤ (kspacingToMesh tok lines k piF).2.1 ∧
    1 ≤ (kspacingToMesh tok lines k piF).2.2 ∧
    (parseCell tok lines = none → kspacingToMesh tok lines k piF = (1, 1, 1)) ∧
    (∀ b1 b2 b3, parseCell tok lines = some (b1, b2, b3) →
      |dot3 b1 (cross3 b2 b3)| < 1 / 100000000 →
      kspacingToMesh tok lines k piF = (1, 1, 1)) := by
  have hm : ∀ d : ℚ, 1 ≤ meshCount d k := by
    intro d
    unfold meshCount
    split <;> simp
  rcases hp : parseCell tok lines with _ | ⟨a1, a2, a3⟩
  · have hres : kspacingToMesh tok lines k piF = (1, 1, 1) := by
      simp [kspacingToMesh, hp]
    rw [hres]
    refine ⟨le_refl 1, le_refl 1, le_refl 1, fun _ => rfl, ?_⟩
    intro b1 b2 b3 heq _
    exact absurd heq (by simp)
  · by_cases hvol : |dot3 a1 (cross3 a2 a3)| < 1 / 100000000
    · have hres : kspacingToMesh tok lines k piF = (1, 1, 1) := by
        simp only [kspacingToMesh, hp]
        rw [if_pos hvol]
      rw [hres]
      exact ⟨le_refl 1, le_refl 1, le_refl 1, fun _ => rfl, fun _ _ _ _ _ => rfl⟩
    · have hk0 : ¬(k = 0) := ne_of_gt hk
      have hres : kspacingToMesh tok lines k piF =
          (meshCount (normSq (smul3 (2 * piF / dot3 a1 (cross3 a2 a3))
            (cross3 a2 a3))) k,
           meshCount (normSq (smul3 (2 * piF / dot3 a1 (cross3 a2 a3))
            (cross3 a3 a1))) k,
           meshCount (normSq (smul3 (2 * piF / dot3 a1 (cross3 a2 a3))
            (cross3 a1 a2))) k) := by
        simp only [kspacingToMesh, hp]
        rw [if_neg hvol, if_neg hk0]
      refine ⟨?_, ?_, ?_, ?_, ?_⟩
      · rw [hres]
        exact hm _
      · rw [hres]
        exact hm _
      · rw [hres]
        exact hm _
      · intro hnone
        exact absurd hnone (by simp)
      · intro b1 b2 b3 heq hlt
        simp only [Option.some.injEq, Prod.mk.injEq] at heq
        obtain ⟨hb1, hb2, hb3⟩ := heq
        subst hb1
        subst hb2
        subst hb3
        exact absurd hlt hvol

/-- Witness for kspacing_to_mesh_safe at a concrete unparseable input. -/
theorem kspacing_to_mesh_safe_witness :
    1 ≤ (kspacingToMesh (fun _ => none) [] 1 3).1 ∧
    kspacingToMesh (fun _ => none) [] 1 3 = (1, 1, 1) := by
  have h := kspacing_to_mesh_safe (fun _ => none) [] 1 3 (by norm_num)
  exact ⟨h.1, h.2.2.2.1 rfl⟩

end DftFlow

